import Mathlib

/-!
Verification of the godns DNS client (package godns) against its
natural-language specification, by a shallow embedding of the source
into Lean.

Embedding conventions:
* Go strings become `String`, slices become `List`, `uint16`/`uint32`
  indices become `Nat`, `time.Duration` amounts are tracked in
  milliseconds as `Nat`.
* Go `error` values are modelled as `String` messages (the code only
  ever builds errors from format strings and compares them by value
  never by identity); a fallible Go call returning `(T, error)` becomes
  `Except String T`.
* External collaborators (the miekg/dns wire codec, the platform TLS
  stack, the HTTP client, the proxy dialer, `net.ParseIP`) are out of
  scope per the spec; their behaviour is abstracted as oracle
  parameters, while every branch and error message of the repository's
  own code is reproduced from the source.
* Concurrency in `MultiQuery` is modelled by making the
  non-deterministic channel drain order an explicit parameter: each of
  the N spawned goroutines sends exactly one result on a channel of
  capacity N and the collection loop drains N results, so a run of the
  program corresponds to a permutation `completion` of the server
  indices `0..N-1` (theorems hypothesise `completion.Perm (List.range
  servers.length)`).
* A cancellable context is modelled by the data the code observes: for
  the retry loop, whether `ctx.Done()` fires before the backoff timer
  during the wait following attempt `i`, together with the `ctx.Err()`
  message.
-/

namespace GoDNS

/-! ## Data model (client.go) -/

/-- Protocol and ProxyType are Go string types; their constants follow. -/
abbrev Protocol := String

abbrev ProxyType := String

/-- Constant `UDP Protocol = "udp"` (client.go). -/
def UDP : Protocol := "udp"

/-- Constant `TCP Protocol = "tcp"` (client.go). -/
def TCP : Protocol := "tcp"

/-- Constant `DoT Protocol = "dot"` (client.go). -/
def DoT : Protocol := "dot"

/-- Constant `DoH Protocol = "doh"` (client.go). -/
def DoH : Protocol := "doh"

/-- Constant `NoProxy ProxyType = ""` (client.go). -/
def NoProxy : ProxyType := ""

/-- Constant `SOCKS5 ProxyType = "socks5"` (client.go). -/
def SOCKS5 : ProxyType := "socks5"

/-- Constant `HTTPProxy ProxyType = "http"` (client.go). -/
def HTTPProxy : ProxyType := "http"

/-- Default `DoHServers` default list (client.go). -/
def DoHServers : List String :=
  ["https://dns.alidns.com/dns-query", "https://doh.pub/dns-query",
   "https://1.12.12.12/dns-query", "https://120.53.53.53/dns-query",
   "https://1.1.1.1/dns-query"]

/-- Default `DoTServers` default list (client.go). -/
def DoTServers : List String :=
  ["223.5.5.5:853", "223.6.6.6:853", "1.12.12.12:853", "120.53.53.53:853",
   "8.8.8.8:853", "1.1.1.1:853"]

/-- Default `UDPServers` default list (client.go). -/
def UDPServers : List String :=
  ["223.5.5.5:53", "223.6.6.6:53", "114.114.114.114:53", "114.114.115.115:53",
   "1.12.12.12:53", "120.53.53.53:53", "119.29.29.29:53", "182.254.116.116:53",
   "8.8.8.8:53", "1.1.1.1:53"]

/-- Struct `ProxyAuth` (client.go). -/
structure ProxyAuth where
  username : String
  password : String
deriving Repr, DecidableEq

/-- Struct `Config` (client.go).  `Timeout` is in milliseconds; `Retries` is a
Go `int`, used by the code only through the loop `for i := 0; i <=
Retries; i++`, modelled here as a `Nat` (the claims quantify over
R >= 0).  The opaque pointer fields `*tls.Config` and `*http.Client`
only matter to the claims through being set or nil, so they are
modelled as `Option Unit`. -/
structure Config where
  timeout : Nat
  retries : Nat
  protocol : Protocol
  servers : List String
  proxyType : ProxyType
  proxyAddr : String
  proxyAuth : Option ProxyAuth
  tlsConfig : Option Unit
  httpClient : Option Unit
deriving Repr

/-- Option `WithProtocol` (client.go, lines 138-150): an `Option` is a
`func(*Config)`; it sets `Protocol` and switches `Servers` to the
protocol family's default list (`case DoH`, `case DoT`, `default`). -/
def withProtocol (p : Protocol) (c : Config) : Config :=
  { c with
    protocol := p,
    servers := if p = DoH then DoHServers else if p = DoT then DoTServers else UDPServers }

/-- Option `WithServers` (client.go, lines 152-156): overwrites `Servers`. -/
def withServers (ss : List String) (c : Config) : Config :=
  { c with servers := ss }

/-! ## Retry engine and UDP/TCP strategy (queryUDPTCP, createDialer) -/

/-- Struct `Record` (part_001): one mapped resource record. -/
structure Record where
  name : String
  rtype : Nat
  ttl : Nat
  value : String
deriving Repr, DecidableEq

/-- A `*dns.Msg` answer, abstracted by the record list that
`queryServer`'s answer-mapping loop produces from it (the wire codec is
an external collaborator). -/
abbrev DNSMsg := List Record

/-- The caller-supplied `context.Context`, as observed by the retry
loop: `cancelledDuringWait i` is true when `ctx.Done()` fires before
the `time.After` backoff timer during the wait that follows attempt
`i`, and `err` is the `ctx.Err()` message. -/
structure Ctx where
  cancelledDuringWait : Nat → Bool
  err : String

/-- Oracle for the external network collaborators consulted by
`queryUDPTCP`, indexed by attempt number: the direct
`client.ExchangeContext` result, and the proxy-path dial / `WriteMsg` /
`ReadMsg` results. -/
structure NetOracle where
  directExchange : Nat → Except String DNSMsg
  proxyDial : Nat → Except String Unit
  proxyWrite : Nat → Except String Unit
  proxyRead : Nat → Except String DNSMsg

/-- Function `createDialer` (part_000, lines 273-288): `case SOCKS5` builds a
SOCKS5 stream dialer (construction by the external proxy library,
abstracted as succeeding); every other proxy type is rejected with the
descriptive error. -/
def createDialer (cfg : Config) : Except String Unit :=
  if cfg.proxyType = SOCKS5 then .ok ()
  else .error ("unsupported proxy type for dialer: " ++ cfg.proxyType)

/-- Function `exchangeWithProxy` (part_000, lines 57-84): build the dialer, dial
the server through it, write the query, read the answer, wrapping each
failure in its format string. -/
def exchangeWithProxy (cfg : Config) (oracle : NetOracle) (i : Nat) :
    Except String DNSMsg :=
  match createDialer cfg with
  | .error e => .error ("failed to create proxy dialer: " ++ e)
  | .ok _ =>
    match oracle.proxyDial i with
    | .error e => .error ("failed to dial through proxy: " ++ e)
    | .ok _ =>
      match oracle.proxyWrite i with
      | .error e => .error ("failed to write DNS message: " ++ e)
      | .ok _ =>
        match oracle.proxyRead i with
        | .error e => .error ("failed to read DNS response: " ++ e)
        | .ok m => .ok m

/-- The body of one iteration of `queryUDPTCP`'s retry loop (part_000,
lines 30-36): proxy path when `ProxyType != NoProxy`, else the direct
exchange. -/
def udpTcpAttempt (cfg : Config) (oracle : NetOracle) (i : Nat) :
    Except String DNSMsg :=
  if cfg.proxyType ≠ NoProxy then exchangeWithProxy cfg oracle i
  else oracle.directExchange i

/-- Observable trace of one `queryUDPTCP` call: the returned value, how
many times the per-attempt operation ran, and the backoff waits (in
milliseconds) that were completed, in order. -/
structure RetryTrace where
  result : Except String DNSMsg
  attempts : Nat
  waits : List Nat
deriving Repr

/-- The retry loop of `queryUDPTCP` (part_000, lines 25-53), with the
current attempt index `i` and the number of attempts still allowed
after this one (`fuel = Retries - i`): run attempt `i`; on success
return at once; otherwise remember the error, and if attempts remain,
either abort with `ctx.Err()` when cancellation fires during the wait,
or complete the `100*(i+1)` ms backoff and continue; when no attempts
remain return the last error. -/
def retryAux (ctx : Ctx) (op : Nat → Except String DNSMsg) (i : Nat) :
    Nat → RetryTrace
  | 0 =>
    match op i with
    | .ok m => ⟨.ok m, 1, []⟩
    | .error e => ⟨.error e, 1, []⟩
  | fuel + 1 =>
    match op i with
    | .ok m => ⟨.ok m, 1, []⟩
    | .error _ =>
      if ctx.cancelledDuringWait i then ⟨.error ctx.err, 1, []⟩
      else
        let t := retryAux ctx op (i + 1) fuel
        ⟨t.result, t.attempts + 1, 100 * (i + 1) :: t.waits⟩

/-- Function `queryUDPTCP` (part_000, lines 19-54): the retry loop applied to
the UDP/TCP attempt body, starting at attempt 0 with `Retries` further
attempts allowed. -/
def queryUDPTCP (cfg : Config) (ctx : Ctx) (oracle : NetOracle) :
    RetryTrace :=
  retryAux ctx (udpTcpAttempt cfg oracle) 0 cfg.retries

/-! ## DoT server normalization (queryDoT, part_000 lines 136-139) -/

/-- The port-normalization step of `queryDoT`: `if
!strings.Contains(server, ":") { server += ":853" }`. -/
def normalizeDoTServer (server : String) : String :=
  if ':' ∈ server.toList then server else server ++ ":853"

/-- Whether an address string carries a port, in the sense of the
platform's `net.SplitHostPort`: the candidate port is the non-empty
run of digits after the last colon, and the host before it must either
contain no further colon or be a bracketed IPv6 literal `[...]`.  A
bare IPv6 literal such as `2001:4860:4860::8888` carries no port. -/
def hasPort (s : String) : Bool :=
  let rev := s.toList.reverse
  let port := rev.takeWhile (fun c => c != ':')
  if port.length = rev.length then false
  else
    let host := (rev.drop (port.length + 1)).reverse
    if port ≠ [] ∧ (∀ c ∈ port, c.isDigit) ∧
        ((∀ c ∈ host, c ≠ ':') ∨ (host.head? = some '[' ∧ host.getLast? = some ']'))
    then true else false

/-! ## DoH request construction (queryDoH, part_000 lines 172-223) -/

/-- The base64url alphabet of `encoding/base64`'s URL encoding. -/
def base64URLAlphabet : List Char :=
  "ABCDEFGHIJKLMNOPQRSTUVWXYZabcdefghijklmnopqrstuvwxyz0123456789-_".toList

/-- Character for one 6-bit group. -/
def b64c (n : Nat) : Char :=
  base64URLAlphabet.getD n 'A'

/-- Encoding `base64.RawURLEncoding.EncodeToString`: base64 over the URL
alphabet with no padding, of a byte list (each `Nat` < 256). -/
def base64RawURL : List Nat → String
  | [] => ""
  | [b0] => String.mk [b64c (b0 / 4), b64c (b0 % 4 * 16)]
  | [b0, b1] => String.mk [b64c (b0 / 4), b64c (b0 % 4 * 16 + b1 / 16), b64c (b1 % 16 * 4)]
  | b0 :: b1 :: b2 :: rest =>
    String.mk [b64c (b0 / 4), b64c (b0 % 4 * 16 + b1 / 16),
               b64c (b1 % 16 * 4 + b2 / 64), b64c (b2 % 64)] ++ base64RawURL rest

/-- Test `strings.HasPrefix(server, "http")` (line 180): the code's
notion of the address already looking like a URL. -/
def looksLikeURL (s : String) : Bool :=
  "http".data.isPrefixOf s.data

/-- The URL-base step of `queryDoH` (lines 179-182): keep `server` as
the URL when it starts with "http" (the code's test for already being
a URL), else build `https://<server>/dns-query`. -/
def dohURLBase (server : String) : String :=
  if looksLikeURL server then server else "https://" ++ server ++ "/dns-query"

/-- The final request URL of `queryDoH` (lines 185-192): `url.Parse`
the base, `q.Set("dns", <base64url of the packed query>)`, re-encode.
On a base with no pre-existing query or fragment this yields
`base ++ "?dns=" ++ value` verbatim, since the base64url alphabet
(`A-Z a-z 0-9 - _`) is left unescaped by Go's query encoding; the
theorems only invoke this on such bases. -/
def dohRequestURL (server : String) (msgBytes : List Nat) : String :=
  dohURLBase server ++ "?dns=" ++ base64RawURL msgBytes

/-- The outgoing HTTP request as `queryDoH` builds it (lines 217-223):
method GET, the request URL, and the two headers set on it. -/
structure DoHRequest where
  url : String
  accept : String
  contentType : String
deriving Repr, DecidableEq

/-- The request-construction step of each `queryDoH` attempt (lines
217-223): `req.Header.Set("Accept", "application/dns-message")` and
`req.Header.Set("Content-Type", "application/dns-message")` on the GET
request for the built URL. -/
def dohRequest (server : String) (msgBytes : List Nat) : DoHRequest :=
  ⟨dohRequestURL server msgBytes, "application/dns-message", "application/dns-message"⟩

/-! ## Fan-out aggregation (part_001: QueryResult, MultiQuery) -/

/-- Struct `QueryResult` (part_001). -/
structure QueryResult where
  domain : String
  qtype : Nat
  records : List Record
  error : Option String
  server : String
deriving Repr, DecidableEq

/-- Struct `MultiQueryResult` (part_001). -/
structure MultiQueryResult where
  domain : String
  qtype : Nat
  results : List QueryResult
  allIPs : List String
deriving Repr, DecidableEq

/-- Numeric value of `dns.TypeA`. -/
def typeA : Nat := 1

/-- Numeric value of `dns.TypeAAAA`. -/
def typeAAAA : Nat := 28

/-- The `QueryResult` one spawned goroutine of `MultiQuery` sends on
the channel (part_001 lines 88-99 together with `queryServer` lines
135-195), given the transport outcome for its server: on transport
error, `queryServer` returns a result carrying domain/type/server and
the error and no records (the goroutine's nil-substitution, reached
only for an unsupported protocol, builds the identical value); on
success it carries the mapped records and a nil error. -/
def queryServerResult (domain : String) (qtype : Nat) (server : String)
    (outcome : Except String DNSMsg) : QueryResult :=
  match outcome with
  | .error e => ⟨domain, qtype, [], some e, server⟩
  | .ok recs => ⟨domain, qtype, recs, none, server⟩

/-- The inner record loop of `MultiQuery`'s collection phase (part_001
lines 110-117): for each record of a drained result, when the query
type is A or AAAA and the value parses as an IP and is not yet in the
set, append it to `AllIPs`.  The Go `ipSet` map holds exactly the
members of the `AllIPs` slice, so the set is represented by the
accumulated list itself. -/
def addRecordIPs (qtype : Nat) (parseIP : String → Bool) (recs : List Record)
    (allIPs : List String) : List String :=
  recs.foldl
    (fun acc r =>
      if (qtype = typeA ∨ qtype = typeAAAA) ∧ parseIP r.value = true then
        if r.value ∈ acc then acc else acc ++ [r.value]
      else acc)
    allIPs

/-- One iteration of `MultiQuery`'s collection loop as it affects
`AllIPs` (part_001 lines 109-118): records are only scanned when the
drained result has a nil error. -/
def collectIPs (qtype : Nat) (parseIP : String → Bool) (res : QueryResult)
    (allIPs : List String) : List String :=
  if res.error = none then addRecordIPs qtype parseIP res.records allIPs
  else allIPs

/-- Function `MultiQuery` (part_001 lines 72-122).  `outcome j` is the
transport outcome of the goroutine for server index `j`; `completion`
is the order in which the collection loop drains the channel (a
permutation of `0..N-1`, see the header comment); `parseIP` abstracts
`net.ParseIP(v) != nil`.  The empty server list is rejected up front
with the configuration error; otherwise the loop appends each drained
result to `Results` in drain order and folds the IP collection over
them, and the call returns a nil error. -/
def MultiQuery (domain : String) (qtype : Nat) (servers : List String)
    (outcome : Nat → Except String DNSMsg) (completion : List Nat)
    (parseIP : String → Bool) : Except String MultiQueryResult :=
  if servers.length = 0 then .error "no DNS servers configured"
  else
    .ok ⟨domain, qtype,
         completion.map
           (fun j => queryServerResult domain qtype (servers.getD j "") (outcome j)),
         (completion.map
           (fun j => queryServerResult domain qtype (servers.getD j "") (outcome j))).foldl
             (fun acc res => collectIPs qtype parseIP res acc) []⟩

/-- Error component of a per-server transport outcome, as it surfaces
in the corresponding `QueryResult.Error` field. -/
def outcomeError : Except String DNSMsg → Option String
  | .error e => some e
  | .ok _ => none

/-- Backoff waits completed by the retry loop when it runs from attempt
`i` through `fuel` further attempts, all failing: `100*(i+1)` ms, then
the waits of the tail. -/
def backoffWaits (i : Nat) : Nat → List Nat
  | 0 => []
  | fuel + 1 => 100 * (i + 1) :: backoffWaits (i + 1) fuel

/-! ## Helper lemmas on the retry loop -/

theorem backoffWaits_eq_map :
    ∀ (fuel i : Nat), backoffWaits i fuel = (List.range fuel).map (fun t => 100 * (i + t + 1)) := by
  intro fuel
  induction fuel with
  | zero => intro i; rfl
  | succ n ih =>
    intro i
    rw [backoffWaits, ih (i + 1), List.range_succ_eq_map, List.map_cons, List.map_map]
    refine congrArg₂ _ (by ring) ?_
    refine List.map_congr_left (fun t _ => ?_)
    simp [Function.comp]
    ring

theorem retryAux_allFail (ctx : Ctx) (op : Nat → Except String DNSMsg)
    (errs : Nat → String)
    (hop : ∀ j, op j = .error (errs j))
    (hnc : ∀ j, ctx.cancelledDuringWait j = false) :
    ∀ fuel i, retryAux ctx op i fuel =
      ⟨.error (errs (i + fuel)), fuel + 1, backoffWaits i fuel⟩ := by
  intro fuel
  induction fuel with
  | zero => intro i; simp [retryAux, hop i, backoffWaits]
  | succ n ih =>
    intro i
    rw [retryAux, hop i]
    simp only [hnc i, Bool.false_eq_true, if_false]
    rw [ih (i + 1)]
    have h1 : i + 1 + n = i + (n + 1) := by omega
    rw [h1]
    rfl

theorem retryAux_firstSuccess (ctx : Ctx) (op : Nat → Except String DNSMsg)
    (hnc : ∀ j, ctx.cancelledDuringWait j = false) :
    ∀ (k n i : Nat) (m : DNSMsg), k ≤ n →
      (∀ j, j < k → ∃ e, op (i + j) = .error e) →
      op (i + k) = .ok m →
      retryAux ctx op i n = ⟨.ok m, k + 1, backoffWaits i k⟩ := by
  intro k
  induction k with
  | zero =>
    intro n i m _ _ hok
    rw [Nat.add_zero] at hok
    cases n <;> simp [retryAux, hok, backoffWaits]
  | succ k ih =>
    intro n i m hle hfail hok
    cases n with
    | zero => omega
    | succ n =>
      obtain ⟨e, he⟩ := hfail 0 (by omega)
      rw [Nat.add_zero] at he
      rw [retryAux, he]
      simp only [hnc i, Bool.false_eq_true, if_false]
      rw [ih n (i + 1) m (by omega)
        (fun j hj => by
          have h2 : i + 1 + j = i + (j + 1) := by omega
          rw [h2]
          exact hfail (j + 1) (by omega))
        (by
          have h3 : i + 1 + k = i + (k + 1) := by omega
          rw [h3]
          exact hok)]
      rfl

theorem retryAux_cancelled (ctx : Ctx) (op : Nat → Except String DNSMsg) :
    ∀ (k n i : Nat), k < n →
      (∀ j, j ≤ k → ∃ e, op (i + j) = .error e) →
      (∀ j, j < k → ctx.cancelledDuringWait (i + j) = false) →
      ctx.cancelledDuringWait (i + k) = true →
      retryAux ctx op i n = ⟨.error ctx.err, k + 1, backoffWaits i k⟩ := by
  intro k
  induction k with
  | zero =>
    intro n i hlt hfail _ hcan
    obtain ⟨e, he⟩ := hfail 0 (by omega)
    rw [Nat.add_zero] at he hcan
    cases n with
    | zero => omega
    | succ n => simp [retryAux, he, hcan, backoffWaits]
  | succ k ih =>
    intro n i hlt hfail hquiet hcan
    cases n with
    | zero => omega
    | succ n =>
      obtain ⟨e, he⟩ := hfail 0 (by omega)
      rw [Nat.add_zero] at he
      rw [retryAux, he]
      have hq0 : ctx.cancelledDuringWait i = false := by
        have := hquiet 0 (by omega)
        rwa [Nat.add_zero] at this
      simp only [hq0, Bool.false_eq_true, if_false]
      rw [ih n (i + 1) (by omega)
        (fun j hj => by
          have h2 : i + 1 + j = i + (j + 1) := by omega
          rw [h2]
          exact hfail (j + 1) (by omega))
        (fun j hj => by
          have h2 : i + 1 + j = i + (j + 1) := by omega
          rw [h2]
          exact hquiet (j + 1) (by omega))
        (by
          have h3 : i + 1 + k = i + (k + 1) := by omega
          rw [h3]
          exact hcan)]
      rfl

theorem backoffWaits_zero (n : Nat) :
    backoffWaits 0 n = (List.range n).map (fun t => 100 * (t + 1)) := by
  rw [backoffWaits_eq_map]
  simp

/-! ## Claim theorems: retry engine -/

/-- C2: for retry count R and an operation failing on every attempt, a
UDP/TCP single-server query runs exactly R+1 attempts, completes waits
of 100ms, 200ms, ..., R*100ms between consecutive attempts (none after
the last), and returns the last attempt's error, discarding the earlier
ones; and if attempt k is the first to succeed, it returns that answer
after k+1 attempts with no further attempts. -/
theorem queryUDPTCP_retry_schedule (cfg : Config) (ctx : Ctx) (oracle : NetOracle)
    (errs : Nat → String)
    (hnc : ∀ i, ctx.cancelledDuringWait i = false) :
    ((∀ i, udpTcpAttempt cfg oracle i = .error (errs i)) →
      queryUDPTCP cfg ctx oracle =
        ⟨.error (errs cfg.retries), cfg.retries + 1,
         (List.range cfg.retries).map (fun t => 100 * (t + 1))⟩) ∧
    (∀ k m, k ≤ cfg.retries →
      (∀ j, j < k → udpTcpAttempt cfg oracle j = .error (errs j)) →
      udpTcpAttempt cfg oracle k = .ok m →
      queryUDPTCP cfg ctx oracle =
        ⟨.ok m, k + 1, (List.range k).map (fun t => 100 * (t + 1))⟩) := by
  constructor
  · intro hop
    rw [queryUDPTCP, retryAux_allFail ctx _ errs hop hnc cfg.retries 0, backoffWaits_zero]
    simp
  · intro k m hk hfail hok
    rw [queryUDPTCP,
      retryAux_firstSuccess ctx _ hnc k cfg.retries 0 m hk
        (fun j hj => ⟨errs j, by simpa using hfail j hj⟩) (by simpa using hok),
      backoffWaits_zero]

/-- Witness for C2: with 2 retries configured and every attempt failing
with "boom", the call makes 3 attempts, waits 100ms then 200ms, and
returns "boom". -/
theorem queryUDPTCP_retry_schedule_witness :
    queryUDPTCP ⟨5000, 2, UDP, UDPServers, NoProxy, "", none, none, none⟩
        ⟨fun _ => false, "context canceled"⟩
        ⟨fun _ => .error "boom", fun _ => .ok (), fun _ => .ok (), fun _ => .ok []⟩ =
      ⟨.error "boom", 3, [100, 200]⟩ := by
  exact (queryUDPTCP_retry_schedule ⟨5000, 2, UDP, UDPServers, NoProxy, "", none, none, none⟩
      ⟨fun _ => false, "context canceled"⟩
      ⟨fun _ => .error "boom", fun _ => .ok (), fun _ => .ok (), fun _ => .ok []⟩
      (fun _ => "boom") (fun _ => rfl)).1 (fun _ => rfl)

/-- C5: if cancellation fires during the backoff wait following attempt
k (earlier waits undisturbed, attempts so far all failed), the query
returns the context's cancellation error — not the preceding attempt's
error — after k+1 attempts, without completing the interrupted wait:
only the k earlier waits appear in the trace. -/
theorem queryUDPTCP_cancel_during_backoff (cfg : Config) (ctx : Ctx) (oracle : NetOracle)
    (k : Nat) (hk : k < cfg.retries)
    (hfail : ∀ j, j ≤ k → ∃ e, udpTcpAttempt cfg oracle j = .error e)
    (hquiet : ∀ j, j < k → ctx.cancelledDuringWait j = false)
    (hcan : ctx.cancelledDuringWait k = true) :
    queryUDPTCP cfg ctx oracle =
      ⟨.error ctx.err, k + 1, (List.range k).map (fun t => 100 * (t + 1))⟩ ∧
    (∀ e, udpTcpAttempt cfg oracle k = .error e → ctx.err ≠ e →
      (queryUDPTCP cfg ctx oracle).result ≠ .error e) := by
  have h := retryAux_cancelled ctx (udpTcpAttempt cfg oracle) k cfg.retries 0 hk
    (fun j hj => by simpa using hfail j hj)
    (fun j hj => by simpa using hquiet j hj)
    (by simpa using hcan)
  constructor
  · rw [queryUDPTCP, h, backoffWaits_zero]
  · intro e _ hne
    rw [queryUDPTCP, h]
    intro hbad
    simp only [Except.error.injEq] at hbad
    exact hne hbad

/-- Witness for C5: with 3 retries, every attempt failing with "boom",
and cancellation firing during the wait after attempt 1, the call
returns the context error after 2 attempts, having completed only the
first 100ms wait. -/
theorem queryUDPTCP_cancel_during_backoff_witness :
    queryUDPTCP ⟨5000, 3, UDP, UDPServers, NoProxy, "", none, none, none⟩
        ⟨fun i => i == 1, "context deadline exceeded"⟩
        ⟨fun _ => .error "boom", fun _ => .ok (), fun _ => .ok (), fun _ => .ok []⟩ =
      ⟨.error "context deadline exceeded", 2, [100]⟩ := by
  exact (queryUDPTCP_cancel_during_backoff
      ⟨5000, 3, UDP, UDPServers, NoProxy, "", none, none, none⟩
      ⟨fun i => i == 1, "context deadline exceeded"⟩
      ⟨fun _ => .error "boom", fun _ => .ok (), fun _ => .ok (), fun _ => .ok []⟩
      1 (by decide) (fun j _ => ⟨"boom", rfl⟩)
      (fun j hj => by
        have hj0 : j = 0 := by omega
        rw [hj0]
        rfl) rfl).1

/-- C6 counterexample: with an HTTP proxy configured, one retry
allowed, and the UDP protocol, the query does fail with the
"unsupported proxy type" configuration error, but only after 2 attempts
and a completed 100ms backoff wait — the claim's "exactly one attempt,
no backoff waits" is false on this input. -/
theorem queryUDPTCP_http_proxy_counterexample :
    queryUDPTCP ⟨5000, 1, UDP, UDPServers, HTTPProxy, "127.0.0.1:8080", none, none, none⟩
        ⟨fun _ => false, "context canceled"⟩
        ⟨fun _ => .ok [], fun _ => .ok (), fun _ => .ok (), fun _ => .ok []⟩ =
      ⟨.error "failed to create proxy dialer: unsupported proxy type for dialer: http",
       2, [100]⟩ ∧
    (2 : Nat) ≠ 1 ∧ ([100] : List Nat) ≠ [] := by
  exact ⟨rfl, by decide, by decide⟩

/-- C6 amended: with an HTTP proxy configured, a UDP/TCP single-server
query fails with the "unsupported proxy type" configuration error and
never falls back to a direct connection (the trace is the same for
every oracle, in particular whatever `directExchange` would return),
but the error is retried like any other: the call returns it only
after R+1 attempts with the full backoff schedule, not after a single
attempt. -/
theorem queryUDPTCP_http_proxy_amended (cfg : Config) (ctx : Ctx) (oracle : NetOracle)
    (hp : cfg.proxyType = HTTPProxy)
    (hnc : ∀ i, ctx.cancelledDuringWait i = false) :
    queryUDPTCP cfg ctx oracle =
      ⟨.error "failed to create proxy dialer: unsupported proxy type for dialer: http",
       cfg.retries + 1, (List.range cfg.retries).map (fun t => 100 * (t + 1))⟩ := by
  have hop : ∀ i, udpTcpAttempt cfg oracle i =
      .error "failed to create proxy dialer: unsupported proxy type for dialer: http" := by
    intro i
    have h1 : cfg.proxyType ≠ NoProxy := by rw [hp]; decide
    have h2 : createDialer cfg = .error ("unsupported proxy type for dialer: " ++ cfg.proxyType) := by
      rw [createDialer, if_neg]
      rw [hp]
      decide
    rw [udpTcpAttempt, if_pos h1, exchangeWithProxy, h2, hp]
    rfl
  rw [queryUDPTCP,
    retryAux_allFail ctx _
      (fun _ => "failed to create proxy dialer: unsupported proxy type for dialer: http")
      hop hnc cfg.retries 0,
    backoffWaits_zero]

/-- Witness for C6 amended: HTTP proxy with the TCP protocol and 2
retries yields the configuration error after 3 attempts and waits of
100ms and 200ms. -/
theorem queryUDPTCP_http_proxy_amended_witness :
    queryUDPTCP ⟨5000, 2, TCP, UDPServers, HTTPProxy, "proxy.local:3128", none, none, none⟩
        ⟨fun _ => false, "context canceled"⟩
        ⟨fun _ => .ok [], fun _ => .ok (), fun _ => .ok (), fun _ => .ok []⟩ =
      ⟨.error "failed to create proxy dialer: unsupported proxy type for dialer: http",
       3, [100, 200]⟩ := by
  exact queryUDPTCP_http_proxy_amended
    ⟨5000, 2, TCP, UDPServers, HTTPProxy, "proxy.local:3128", none, none, none⟩
    ⟨fun _ => false, "context canceled"⟩
    ⟨fun _ => .ok [], fun _ => .ok (), fun _ => .ok (), fun _ => .ok []⟩
    rfl (fun _ => rfl)

/-! ## Claim theorems: configuration options -/

/-- C10: applying `WithProtocol` writes the `Protocol` field and
replaces `Servers` with the protocol family's default list, leaving
every other configuration field unchanged; hence applying it after
`WithServers` discards the custom server list in favour of the
protocol's default list. -/
theorem withProtocol_frame (p : Protocol) (ss : List String) (c : Config) :
    (withProtocol p c).protocol = p ∧
    (withProtocol p c).servers =
      (if p = DoH then DoHServers else if p = DoT then DoTServers else UDPServers) ∧
    (withProtocol p c).timeout = c.timeout ∧
    (withProtocol p c).retries = c.retries ∧
    (withProtocol p c).proxyType = c.proxyType ∧
    (withProtocol p c).proxyAddr = c.proxyAddr ∧
    (withProtocol p c).proxyAuth = c.proxyAuth ∧
    (withProtocol p c).tlsConfig = c.tlsConfig ∧
    (withProtocol p c).httpClient = c.httpClient ∧
    (withProtocol p (withServers ss c)).servers =
      (if p = DoH then DoHServers else if p = DoT then DoTServers else UDPServers) := by
  exact ⟨rfl, rfl, rfl, rfl, rfl, rfl, rfl, rfl, rfl, rfl⟩

/-! ## Claim theorems: DoT server normalization -/

theorem takeWhile_ne_colon (l : List Char) (h : ':' ∉ l) :
    l.takeWhile (fun c => c != ':') = l := by
  induction l with
  | nil => rfl
  | cons a t ih =>
    have ha : a ≠ ':' := fun hc => h (by rw [hc]; exact List.mem_cons_self _ _)
    have ht : ':' ∉ t := fun hc => h (List.mem_cons_of_mem _ hc)
    simp [List.takeWhile_cons, ha, ih ht]

theorem hasPort_imp_colon (s : String) (h : hasPort s = true) : ':' ∈ s.toList := by
  by_contra hc
  have hrev : ':' ∉ s.toList.reverse := by simpa using hc
  have h1 : s.toList.reverse.takeWhile (fun c => c != ':') = s.toList.reverse :=
    takeWhile_ne_colon _ hrev
  have h1' : List.takeWhile (fun c => c != ':') s.data.reverse = s.data.reverse := h1
  rw [hasPort] at h
  simp at h
  exact h.1 (by rw [h1', List.length_reverse]; rfl)

/-- C9 counterexample: `2001:4860:4860::8888` (a public resolver as a
bare IPv6 literal) carries no port, yet `queryDoT`'s normalization
leaves it unchanged instead of appending ":853", because the code tests
for a colon character rather than for a port. -/
theorem normalizeDoT_counterexample :
    hasPort "2001:4860:4860::8888" = false ∧
    normalizeDoTServer "2001:4860:4860::8888" = "2001:4860:4860::8888" ∧
    normalizeDoTServer "2001:4860:4860::8888" ≠ "2001:4860:4860::8888" ++ ":853" := by
  exact ⟨by decide, by decide, by decide⟩

/-- C9 amended: the DoT strategy appends ":853" exactly when the
address contains no colon character; hence "9.9.9.9" becomes
"9.9.9.9:853", every address that carries a port is left unchanged, but
so are bare IPv6 literals that carry no port. -/
theorem normalizeDoT_amended (s : String) :
    (hasPort s = true → normalizeDoTServer s = s) ∧
    (':' ∉ s.toList → normalizeDoTServer s = s ++ ":853") := by
  constructor
  · intro h
    rw [normalizeDoTServer, if_pos (hasPort_imp_colon s h)]
  · intro h
    rw [normalizeDoTServer, if_neg h]

/-- Witness for C9 amended: the spec's Scenario C input "9.9.9.9" is
normalized to "9.9.9.9:853", and an address already carrying a port is
left unchanged. -/
theorem normalizeDoT_amended_witness :
    normalizeDoTServer "9.9.9.9" = "9.9.9.9" ++ ":853" ∧
    normalizeDoTServer "1.1.1.1:853" = "1.1.1.1:853" := by
  exact ⟨(normalizeDoT_amended "9.9.9.9").2 (by decide),
         (normalizeDoT_amended "1.1.1.1:853").1 (by decide)⟩

/-! ## Claim theorems: DoH request construction -/

/-- C8: for a server address that does not look like a URL (the code's
test: it does not start with "http"), the DoH strategy requests
`https://<server>/dns-query?dns=<base64url-no-padding of the packed
query>` with both the Accept and Content-Type headers set to
application/dns-message. -/
theorem dohRequest_spec (server : String) (msgBytes : List Nat)
    (h : looksLikeURL server = false) :
    dohRequest server msgBytes =
      ⟨"https://" ++ server ++ "/dns-query?dns=" ++ base64RawURL msgBytes,
       "application/dns-message", "application/dns-message"⟩ := by
  rw [dohRequest, dohRequestURL, dohURLBase, h]
  simp only [Bool.false_eq_true, if_false]
  congr 1
  simp only [String.append_assoc]
  rw [show ("/dns-query?dns=" : String) = "/dns-query" ++ "?dns=" from rfl,
    String.append_assoc]

/-- Witness for C8: the spec's Scenario B address "dns.example.org"
with packed query bytes 0,1,2 yields exactly
`https://dns.example.org/dns-query?dns=AAEC` and the two headers. -/
theorem dohRequest_spec_witness :
    dohRequest "dns.example.org" [0, 1, 2] =
      ⟨"https://dns.example.org/dns-query?dns=AAEC",
       "application/dns-message", "application/dns-message"⟩ := by
  exact (dohRequest_spec "dns.example.org" [0, 1, 2] (by decide)).trans (by decide)

/-! ## Helper lemmas on the IP-collection fold of MultiQuery -/

theorem addRecordIPs_cons (qtype : Nat) (parseIP : String → Bool) (r : Record)
    (t : List Record) (acc : List String) :
    addRecordIPs qtype parseIP (r :: t) acc =
      addRecordIPs qtype parseIP t
        (if (qtype = typeA ∨ qtype = typeAAAA) ∧ parseIP r.value = true then
          (if r.value ∈ acc then acc else acc ++ [r.value]) else acc) := rfl

theorem addRecordIPs_nodup (qtype : Nat) (parseIP : String → Bool) :
    ∀ (recs : List Record) (acc : List String), acc.Nodup →
      (addRecordIPs qtype parseIP recs acc).Nodup := by
  intro recs
  induction recs with
  | nil => intro acc h; exact h
  | cons r t ih =>
    intro acc h
    rw [addRecordIPs_cons]
    apply ih
    by_cases h1 : (qtype = typeA ∨ qtype = typeAAAA) ∧ parseIP r.value = true
    · rw [if_pos h1]
      by_cases h2 : r.value ∈ acc
      · rwa [if_pos h2]
      · rw [if_neg h2, ← List.concat_eq_append]
        exact List.Nodup.concat h2 h
    · rwa [if_neg h1]

theorem addRecordIPs_mem (qtype : Nat) (parseIP : String → Bool) :
    ∀ (recs : List Record) (acc : List String) (v : String),
      v ∈ addRecordIPs qtype parseIP recs acc →
        v ∈ acc ∨ (parseIP v = true ∧ ∃ rec, rec ∈ recs ∧ rec.value = v) := by
  intro recs
  induction recs with
  | nil => intro acc v h; exact Or.inl h
  | cons r t ih =>
    intro acc v h
    rw [addRecordIPs_cons] at h
    rcases ih _ v h with h1 | ⟨hp, rec, hrec, hval⟩
    · by_cases hcond : (qtype = typeA ∨ qtype = typeAAAA) ∧ parseIP r.value = true
      · rw [if_pos hcond] at h1
        by_cases hm : r.value ∈ acc
        · rw [if_pos hm] at h1
          exact Or.inl h1
        · rw [if_neg hm] at h1
          rcases List.mem_append.1 h1 with ha | hb
          · exact Or.inl ha
          · have hv : v = r.value := by simpa using hb
            refine Or.inr ⟨by rw [hv]; exact hcond.2, r, List.mem_cons_self r t, hv.symm⟩
      · rw [if_neg hcond] at h1
        exact Or.inl h1
    · exact Or.inr ⟨hp, rec, List.mem_cons_of_mem r hrec, hval⟩

theorem addRecordIPs_other (qtype : Nat) (parseIP : String → Bool)
    (h1 : qtype ≠ typeA) (h2 : qtype ≠ typeAAAA) :
    ∀ (recs : List Record) (acc : List String),
      addRecordIPs qtype parseIP recs acc = acc := by
  intro recs
  induction recs with
  | nil => intro acc; rfl
  | cons r t ih =>
    intro acc
    rw [addRecordIPs_cons, if_neg (fun hcontra => hcontra.1.elim h1 h2)]
    exact ih acc

theorem collect_fold_nodup (qtype : Nat) (parseIP : String → Bool) :
    ∀ (l : List QueryResult) (acc : List String), acc.Nodup →
      (l.foldl (fun a res => collectIPs qtype parseIP res a) acc).Nodup := by
  intro l
  induction l with
  | nil => intro acc h; exact h
  | cons q t ih =>
    intro acc h
    rw [List.foldl_cons]
    apply ih
    rw [collectIPs]
    by_cases he : q.error = none
    · rw [if_pos he]
      exact addRecordIPs_nodup qtype parseIP q.records acc h
    · rwa [if_neg he]

theorem collect_fold_mem (qtype : Nat) (parseIP : String → Bool) :
    ∀ (l : List QueryResult) (acc : List String) (v : String),
      v ∈ l.foldl (fun a res => collectIPs qtype parseIP res a) acc →
        v ∈ acc ∨ (parseIP v = true ∧
          ∃ q, q ∈ l ∧ q.error = none ∧ ∃ rec, rec ∈ q.records ∧ rec.value = v) := by
  intro l
  induction l with
  | nil => intro acc v h; exact Or.inl h
  | cons q t ih =>
    intro acc v h
    rw [List.foldl_cons] at h
    rcases ih _ v h with h1 | ⟨hp, q', hq', he', rec, hrec, hval⟩
    · rw [collectIPs] at h1
      by_cases he : q.error = none
      · rw [if_pos he] at h1
        rcases addRecordIPs_mem qtype parseIP q.records acc v h1 with h2 | ⟨hp, rec, hrec, hval⟩
        · exact Or.inl h2
        · exact Or.inr ⟨hp, q, List.mem_cons_self q t, he, rec, hrec, hval⟩
      · rw [if_neg he] at h1
        exact Or.inl h1
    · exact Or.inr ⟨hp, q', List.mem_cons_of_mem q hq', he', rec, hrec, hval⟩

theorem collect_fold_other (qtype : Nat) (parseIP : String → Bool)
    (h1 : qtype ≠ typeA) (h2 : qtype ≠ typeAAAA) :
    ∀ (l : List QueryResult) (acc : List String),
      l.foldl (fun a res => collectIPs qtype parseIP res a) acc = acc := by
  intro l
  induction l with
  | nil => intro acc; rfl
  | cons q t ih =>
    intro acc
    rw [List.foldl_cons, ih]
    rw [collectIPs]
    by_cases he : q.error = none
    · rw [if_pos he, addRecordIPs_other qtype parseIP h1 h2]
    · rw [if_neg he]

/-! ## Claim theorems: fan-out aggregation -/

/-- C7: `MultiQuery` returns a top-level error exactly when the server
list is empty (and then the fixed configuration error, independent of
every other input, so no per-server work is consulted); for a non-empty
list it returns a nil top-level error whose per-server entries carry
the individual outcomes' errors (none for successes), even when every
server failed. -/
theorem multiQuery_top_error_iff (domain : String) (qtype : Nat) (servers : List String)
    (outcome : Nat → Except String DNSMsg) (completion : List Nat) (parseIP : String → Bool)
    (_hc : completion.Perm (List.range servers.length)) :
    (servers = [] →
      MultiQuery domain qtype servers outcome completion parseIP =
        .error "no DNS servers configured") ∧
    (servers ≠ [] →
      ∃ r, MultiQuery domain qtype servers outcome completion parseIP = .ok r ∧
        r.results.map (fun q => q.error) =
          completion.map (fun j => outcomeError (outcome j))) := by
  constructor
  · intro h
    subst h
    rfl
  · intro hne
    have hlen : ¬servers.length = 0 := fun h0 => hne (List.length_eq_zero.1 h0)
    rw [MultiQuery, if_neg hlen]
    refine ⟨_, rfl, ?_⟩
    rw [List.map_map]
    refine List.map_congr_left (fun j _ => ?_)
    cases h : outcome j
    · simp [queryServerResult, outcomeError, h]
    · simp [queryServerResult, outcomeError, h]

/-- Witness for C7: an empty server list yields the configuration
error; two servers that both fail yield a nil top-level error with both
failures carried per-server. -/
theorem multiQuery_top_error_iff_witness :
    (MultiQuery "w7.example" 1 [] (fun _ => .ok []) [] (fun _ => true) =
      .error "no DNS servers configured") ∧
    (∃ r, MultiQuery "w7.example" 1 ["a", "b"] (fun _ => .error "unreachable") [0, 1]
        (fun _ => true) = .ok r ∧
      r.results.map (fun q => q.error) = [some "unreachable", some "unreachable"]) := by
  constructor
  · exact (multiQuery_top_error_iff "w7.example" 1 [] (fun _ => .ok []) []
      (fun _ => true) (by decide)).1 rfl
  · obtain ⟨r, h1, h2⟩ := (multiQuery_top_error_iff "w7.example" 1 ["a", "b"]
      (fun _ => .error "unreachable") [0, 1] (fun _ => true) (by decide)).2 (by decide)
    exact ⟨r, h1, h2.trans (by decide)⟩

/-- C3: against N >= 1 configured servers, `MultiQuery` returns exactly
N per-server results however many failed: the result list is a
permutation of one `QueryResult` per configured server (each spawned
unit contributes exactly one), and a failing unit contributes the
substituted result carrying the domain, type, server and error with no
records. -/
theorem multiQuery_result_count (domain : String) (qtype : Nat) (servers : List String)
    (outcome : Nat → Except String DNSMsg) (completion : List Nat) (parseIP : String → Bool)
    (hc : completion.Perm (List.range servers.length)) (hne : servers ≠ []) :
    ∃ r, MultiQuery domain qtype servers outcome completion parseIP = .ok r ∧
      r.results.length = servers.length ∧
      r.results.Perm ((List.range servers.length).map
        (fun j => queryServerResult domain qtype (servers.getD j "") (outcome j))) ∧
      (∀ j e, outcome j = .error e →
        queryServerResult domain qtype (servers.getD j "") (outcome j) =
          ⟨domain, qtype, [], some e, servers.getD j ""⟩) := by
  have hlen : ¬servers.length = 0 := fun h0 => hne (List.length_eq_zero.1 h0)
  rw [MultiQuery, if_neg hlen]
  refine ⟨_, rfl, ?_, ?_, ?_⟩
  · rw [List.length_map, hc.length_eq, List.length_range]
  · exact hc.map _
  · intro j e he
    simp [queryServerResult, he]

/-- Witness for C3: three servers, one success and two distinct
failures, drained in the order 2,0,1, yield three results forming a
permutation of the per-server results, with the stated substitution for
the failures. -/
theorem multiQuery_result_count_witness :
    ∃ r, MultiQuery "w3.example" 1 ["x", "y", "z"]
        (fun j => if j = 0 then .ok [] else .error "boom") [2, 0, 1] (fun _ => true) = .ok r ∧
      r.results.length = (["x", "y", "z"] : List String).length ∧
      r.results.Perm ((List.range (["x", "y", "z"] : List String).length).map
        (fun j => queryServerResult "w3.example" 1 ((["x", "y", "z"] : List String).getD j "")
          ((fun j => if j = 0 then (.ok [] : Except String DNSMsg) else .error "boom") j))) ∧
      (∀ j e, (fun j => if j = 0 then (.ok [] : Except String DNSMsg) else .error "boom") j =
          .error e →
        queryServerResult "w3.example" 1 ((["x", "y", "z"] : List String).getD j "")
          ((fun j => if j = 0 then (.ok [] : Except String DNSMsg) else .error "boom") j) =
          ⟨"w3.example", 1, [], some e, (["x", "y", "z"] : List String).getD j ""⟩) := by
  exact multiQuery_result_count "w3.example" 1 ["x", "y", "z"]
    (fun j => if j = 0 then .ok [] else .error "boom") [2, 0, 1] (fun _ => true)
    (by decide) (by decide)

/-- C1 counterexample: with two configured servers and the second
completing first (drain order 1,0 — a legitimate completion order,
being a permutation of the server indices), the first entry of
`Results` is the second configured server's result: `Results` is in
completion order, not configuration order, so the claim fails. -/
theorem multiQuery_config_order_counterexample :
    List.Perm [1, 0] (List.range 2) ∧
    (∃ r, MultiQuery "example.com" 1 ["s1", "s2"] (fun _ => .ok []) [1, 0] (fun _ => true) =
        .ok r ∧
      r.results.map (fun q => q.server) = ["s2", "s1"]) ∧
    (["s2", "s1"] : List String) ≠ ["s1", "s2"] := by
  exact ⟨by decide, ⟨_, rfl, by decide⟩, by decide⟩

/-- C1 amended: the `Results` sequence of a completed `MultiQuery` is
in channel-drain (completion) order — the i-th entry is the result of
the server whose query completed i-th — not in configuration order;
its length still equals the number of configured servers. -/
theorem multiQuery_results_completion_order (domain : String) (qtype : Nat)
    (servers : List String) (outcome : Nat → Except String DNSMsg) (completion : List Nat)
    (parseIP : String → Bool)
    (hc : completion.Perm (List.range servers.length)) (hne : servers ≠ []) :
    ∃ r, MultiQuery domain qtype servers outcome completion parseIP = .ok r ∧
      r.results = completion.map
        (fun j => queryServerResult domain qtype (servers.getD j "") (outcome j)) ∧
      r.results.length = servers.length := by
  have hlen : ¬servers.length = 0 := fun h0 => hne (List.length_eq_zero.1 h0)
  rw [MultiQuery, if_neg hlen]
  refine ⟨_, rfl, rfl, ?_⟩
  rw [List.length_map, hc.length_eq, List.length_range]

/-- Witness for C1 amended: two servers drained in the order 1,0
produce the two per-server results in exactly that order. -/
theorem multiQuery_results_completion_order_witness :
    ∃ r, MultiQuery "w1.example" 28 ["p", "q"] (fun j => .error (if j = 0 then "e0" else "e1"))
        [1, 0] (fun _ => true) = .ok r ∧
      r.results = [1, 0].map
        (fun j => queryServerResult "w1.example" 28 ((["p", "q"] : List String).getD j "")
          ((fun j => .error (if j = 0 then "e0" else "e1") : Nat → Except String DNSMsg) j)) ∧
      r.results.length = (["p", "q"] : List String).length := by
  exact multiQuery_results_completion_order "w1.example" 28 ["p", "q"]
    (fun j => .error (if j = 0 then "e0" else "e1")) [1, 0] (fun _ => true)
    (by decide) (by decide)

/-- C4: for a completed `MultiQuery`, `AllIPs` holds no duplicate
address strings, every entry parses as an IP and is the value of some
record of a per-server result with a nil error, and for query types
other than A and AAAA `AllIPs` is empty. -/
theorem multiQuery_allIPs_invariants (domain : String) (qtype : Nat) (servers : List String)
    (outcome : Nat → Except String DNSMsg) (completion : List Nat) (parseIP : String → Bool)
    (_hc : completion.Perm (List.range servers.length)) (hne : servers ≠ []) :
    ∃ r, MultiQuery domain qtype servers outcome completion parseIP = .ok r ∧
      r.allIPs.Nodup ∧
      (∀ v, v ∈ r.allIPs → parseIP v = true ∧
        ∃ q, q ∈ r.results ∧ q.error = none ∧ ∃ rec, rec ∈ q.records ∧ rec.value = v) ∧
      (qtype ≠ typeA → qtype ≠ typeAAAA → r.allIPs = []) := by
  have hlen : ¬servers.length = 0 := fun h0 => hne (List.length_eq_zero.1 h0)
  rw [MultiQuery, if_neg hlen]
  refine ⟨_, rfl, ?_, ?_, ?_⟩
  · exact collect_fold_nodup qtype parseIP _ [] List.nodup_nil
  · intro v hv
    rcases collect_fold_mem qtype parseIP _ [] v hv with h | ⟨hp, q, hq, he, rec, hrec, hval⟩
    · exact absurd h (List.not_mem_nil v)
    · exact ⟨hp, q, hq, he, rec, hrec, hval⟩
  · intro h1 h2
    exact collect_fold_other qtype parseIP h1 h2 _ []

/-- Witness for C4: the spec's Scenario A — three servers, two
returning 93.184.216.34 and one failing — gives a duplicate-free
`AllIPs` whose single entry comes from a successful result's record. -/
theorem multiQuery_allIPs_invariants_witness :
    ∃ r, MultiQuery "scenario-a.example" 1 ["a", "b", "c"]
        (fun j => if j = 2 then .error "fail"
          else .ok [⟨"scenario-a.example.", 1, 60, "93.184.216.34"⟩])
        [1, 2, 0] (fun s => s == "93.184.216.34") = .ok r ∧
      r.allIPs.Nodup ∧
      (∀ v, v ∈ r.allIPs → (fun s => s == "93.184.216.34") v = true ∧
        ∃ q, q ∈ r.results ∧ q.error = none ∧ ∃ rec, rec ∈ q.records ∧ rec.value = v) ∧
      ((1 : Nat) ≠ typeA → (1 : Nat) ≠ typeAAAA → r.allIPs = []) := by
  exact multiQuery_allIPs_invariants "scenario-a.example" 1 ["a", "b", "c"]
    (fun j => if j = 2 then .error "fail"
      else .ok [⟨"scenario-a.example.", 1, 60, "93.184.216.34"⟩])
    [1, 2, 0] (fun s => s == "93.184.216.34") (by decide) (by decide)

end GoDNS
